import Mathlib

/- Verification of the yoochoose dataset preparation pipeline of
   sequence/data/datasets.py against its natural language specification.
   Records are parsed CSV rows; timestamps are totally ordered values
   (modelled as Nat), item ids are opaque tokens with decidable equality
   (modelled as Nat), session ids are integers (modelled as Nat). -/

set_option maxRecDepth 2000

namespace Sequence

/-- One parsed row of the clickstream CSV: columns session_id, timestamp,
item_id (the category column is not read). -/
structure Record where
  session_id : Nat
  timestamp : Nat
  item_id : Nat
deriving DecidableEq, Repr

/-- Occurrence count of item i over a record set: df.value_counts on the
item_id column. -/
def itemCount (df : List Record) (i : Nat) : Nat :=
  df.countP (fun r => r.item_id == i)

/-- Lines 149-164 of datasets.py: keep only records whose item occurs at
least min_unique times in the whole pre-filter record set.  The source
computes value_counts, keeps counts greater or equal to min_unique, and
inner-joins back on item_id; the join keys of the right frame are unique
and an inner merge preserves the order of the left keys, so the step is a
filter over the record list. -/
def filterUniqueStep (min_unique : Nat) (df : List Record) : List Record :=
  df.filter (fun r => decide (min_unique ≤ itemCount df r.item_id))

/-- Record count of session s over a record set. -/
def sessionCount (df : List Record) (s : Nat) : Nat :=
  df.countP (fun r => r.session_id == s)

/-- Lines 166-175: drop sessions of length 1 (keep records whose session
has a per-session record count strictly greater than 1); again an inner
merge on unique keys, hence a filter. -/
def sessionLengthStep (df : List Record) : List Record :=
  df.filter (fun r => decide (1 < sessionCount df r.session_id))

/-- Line 177: df.sort_values on the timestamp column. -/
def sortByTimestamp (df : List Record) : List Record :=
  df.mergeSort (fun a b => decide (a.timestamp ≤ b.timestamp))

/-- The hard-coded size of the temporal tail split (lines 179-180). -/
def TAIL_N : Nat := 71233

/-- Line 180: df.iloc up to -71233, the training part of the split.  When
the frame has at most 71233 rows this is empty, matching iloc. -/
def trainSplit (df3 : List Record) : List Record :=
  df3.take (df3.length - TAIL_N)

/-- Line 179: df.iloc from -71233, the test part of the split.  When the
frame has at most 71233 rows this is the whole frame, matching iloc. -/
def testSplit (df3 : List Record) : List Record :=
  df3.drop (df3.length - TAIL_N)

/-- Line 181: keep only test records whose item occurs somewhere in the
training split. -/
def oovFilter (dfTrain dfTest : List Record) : List Record :=
  dfTest.filter (fun r => dfTrain.any (fun t => t.item_id == r.item_id))

/-- Worker for dropDupBy: seen holds the key values already emitted. -/
def dropDupByAux {α : Type} (key : α → Nat) (seen : List Nat) :
    List α → List α
  | [] => []
  | x :: rest =>
      if key x ∈ seen then dropDupByAux key seen rest
      else x :: dropDupByAux key (key x :: seen) rest

/-- drop_duplicates by a key: keep the first element carrying each key
value, preserving order, as pandas drop_duplicates does. -/
def dropDupBy {α : Type} (key : α → Nat) (l : List α) : List α :=
  dropDupByAux key [] l

/-- Lines 185-187: one representative record per distinct session
(drop_duplicates keeps the first, whose timestamp is the session start
since the frame is sorted), sorted by timestamp. -/
def div64Sessions (df : List Record) : List Record :=
  (dropDupBy (fun r => r.session_id) df).mergeSort
    (fun a b => decide (a.timestamp ≤ b.timestamp))

/-- iloc from -n on a frame: for n greater than zero this selects the
last n rows; Python resolves -0 to 0, so sessions.iloc[-0:] is
sessions.iloc[0:] and selects the whole frame. -/
def ilocFromNeg {α : Type} (n : Nat) (l : List α) : List α :=
  if n = 0 then l else l.drop (l.length - n)

/-- Lines 188-189: the session ids of the sessions kept by
sessions.iloc[-n:] with n = S // 60: the last floor(S/60) sessions of
the sorted session frame when that quotient is positive, and the whole
frame when it is zero (fewer than 60 distinct sessions), because
iloc[-0:] keeps everything. -/
def div64Keep (df : List Record) : List Nat :=
  (ilocFromNeg ((div64Sessions df).length / 60) (div64Sessions df)).map
    (fun r => r.session_id)

/-- Lines 183-194: the div64 reduction.  The training frame is
inner-joined back against the kept session ids, i.e. filtered to the
kept sessions in frame order. -/
def div64Step (df : List Record) : List Record :=
  df.filter (fun r => (div64Keep df).contains r.session_id)

/-- Distinct session ids in ascending order: pandas groupby sorts its
group keys. -/
def sessionKeys (df : List Record) : List Nat :=
  (dropDupBy id (df.map (fun r => r.session_id))).mergeSort
    (fun a b => decide (a ≤ b))

/-- Lines 199-200, groupby(session_id).agg(list): for each distinct
session id in ascending key order, the list of its item ids in frame row
order (pandas groupby preserves the relative order of rows inside each
group). -/
def groupAgg (df : List Record) : List (Nat × List Nat) :=
  (sessionKeys df).map (fun s =>
    (s, (df.filter (fun r => r.session_id == s)).map (fun r => r.item_id)))

/-- Lines 210-211: the session sequences handed to the Dataset
constructor, one row per aggregated session. -/
def aggRows (df : List Record) : List (List Nat) :=
  (groupAgg df).map (fun g => g.2)

/-- The frequency stage as it sits in the pipeline: applied only when
filter_unique is true (lines 149-164 are guarded by the flag). -/
def freqStage (filter_unique : Bool) (min_unique : Nat)
    (df : List Record) : List Record :=
  if filter_unique then filterUniqueStep min_unique df else df

/-- The surviving records after both filters, sorted by timestamp: the
frame the temporal split of lines 179-180 is taken from. -/
def survivorsSorted (df0 : List Record) (min_unique : Nat)
    (filter_unique : Bool) : List Record :=
  sortByTimestamp (sessionLengthStep (freqStage filter_unique min_unique df0))

/-- Lines 149-197 of the yoochoose function: the record-level pipeline,
from the parsed frame to the final training and test record lists right
before aggregation.  The first component is df (the training records,
subsampled when div64 is set), the second df_test (the tail split after
the out-of-vocabulary filter of line 181, which reads the training split
before any div64 subsampling). -/
def pipelineRecords (df0 : List Record) (min_unique : Nat)
    (div64 filter_unique : Bool) : List Record × List Record :=
  ((if div64
      then div64Step (trainSplit (survivorsSorted df0 min_unique filter_unique))
      else trainSplit (survivorsSorted df0 min_unique filter_unique)),
   oovFilter (trainSplit (survivorsSorted df0 min_unique filter_unique))
     (testSplit (survivorsSorted df0 min_unique filter_unique)))

/-- The two aggregations of lines 199-200 as lists of session sequences
(training first, test second). -/
def pipelineDatasets (df0 : List Record) (min_unique : Nat)
    (div64 filter_unique : Bool) : List (List Nat) × List (List Nat) :=
  (aggRows (pipelineRecords df0 min_unique div64 filter_unique).1,
   aggRows (pipelineRecords df0 min_unique div64 filter_unique).2)

/-- The vocabulary object created at line 209.  The claims only use its
identity as the language attached to the returned Dataset, so the model
keeps the constructor arguments Language(lower=False,
remove_punctuation=False). -/
structure Language where
  lower : Bool
  removePunct : Bool
deriving DecidableEq, Repr

/-- A sequence.data.utils.Dataset as far as the yoochoose claims observe
it: the session sequences it was built from, the shared Language, and an
internal chunking granularity (a storage detail adjusted by rechunk). -/
structure DatasetObj where
  rows : List (List Nat)
  language : Language
  chunks : Nat
deriving DecidableEq, Repr

/-- What the yoochoose function can return: the (Dataset, Language) pair
of lines 127 and 219, or the raw groupby aggregation of line 207. -/
inductive YoResult where
  | pair (ds : DatasetObj) (lang : Language)
  | aggOnly (agg : List (Nat × List Nat))
deriving DecidableEq, Repr

/-- Contents of the two pickle files in storage_dir: yoochoose-ds.pkl and
yoochoose-ds-test.pkl (none when the file does not exist). -/
structure CacheState where
  cachedDs : Option DatasetObj
  cachedTestDs : Option DatasetObj
deriving DecidableEq, Repr

/-- Line 126, ds.data.rechunk("auto"): an internal storage normalization;
rows and language are untouched, only the chunk granularity changes (here
normalised to the row count). -/
def rechunkAuto (d : DatasetObj) : DatasetObj :=
  { d with chunks := d.rows.length }

/-- Dataset construction at lines 210-211: wraps session sequences with
the shared Language. -/
def mkDataset (rows : List (List Nat)) (lang : Language) : DatasetObj :=
  { rows := rows, language := lang, chunks := rows.length }

/-- Lines 121-219 of datasets.py, the body of the yoochoose function.
dfClicks and dfTestFile are the parsed contents of yoochoose-clicks.dat
and yoochoose-test.dat (the test flag selects which file is read at lines
129-132; nrows and skiprows act inside read_csv and are absorbed into
these arguments).  Returns the cache state after the call together with
the returned value. -/
def yoochoose (st : CacheState) (dfClicks dfTestFile : List Record)
    (min_unique : Nat) (div64 test cache return_agg filter_unique : Bool) :
    CacheState × YoResult :=
  match cache, st.cachedDs with
  | true, some d =>
      let ds := rechunkAuto d
      (st, .pair ds ds.language)
  | _, _ =>
      let df0 := if test then dfTestFile else dfClicks
      let p := pipelineRecords df0 min_unique div64 filter_unique
      if return_agg then (st, .aggOnly (groupAgg p.1))
      else
        let language : Language := { lower := false, removePunct := false }
        let ds := mkDataset (aggRows p.1) language
        let dsTest := mkDataset (aggRows p.2) language
        if cache then
          ({ cachedDs := some ds, cachedTestDs := some dsTest },
           .pair ds ds.language)
        else (st, .pair ds ds.language)

/-- Observable side effects of download_and_unpack_yoochoose. -/
inductive AcqEvent where
  | download   -- urlretrieve: network access and archive file creation
  | makedirs   -- creation of the yoochoose-data directory
  | extract    -- Archive(fp).extractall
  | removedirs -- cleanup of the directory after a failed extraction
deriving DecidableEq, Repr

/-- The parts of the file system and environment the acquisition step
touches: whether storage_dir/yoochoose-data.7z exists, whether the
storage_dir/yoochoose-data directory exists, and whether a system 7zip
application is available (extractall raises PatoolError exactly when it
is not). -/
structure AcqFS where
  archiveFile : Bool
  dataDir : Bool
  canUnpack : Bool
deriving DecidableEq, Repr

/-- Control flow at the end of an acquisition call: either the function
returns normally, or an exception propagates to the caller. -/
inductive AcqResult where
  | normalReturn
  | raised
deriving DecidableEq, Repr

/-- Outcome of one acquisition call: the file system afterwards, the side
effects in order, and the control-flow result. -/
structure AcqOutcome where
  fs : AcqFS
  events : List AcqEvent
  result : AcqResult
deriving DecidableEq, Repr

/-- Lines 54-74 of datasets.py: download the archive unless the file is
present, then unless the data directory is present create it and extract
the archive into it; a PatoolError from extractall is caught, logged with
remediation guidance, and the directory is removed with os.removedirs,
after which the handler falls through and the function returns normally
(the source has no raise in the except block). -/
def download_and_unpack_yoochoose (fs : AcqFS) : AcqOutcome :=
  let dl : AcqFS × List AcqEvent :=
    if !fs.archiveFile then ({ fs with archiveFile := true }, [.download])
    else (fs, [])
  let fs1 := dl.1
  if !fs1.dataDir then
    if fs1.canUnpack then
      { fs := { fs1 with dataDir := true },
        events := dl.2 ++ [.makedirs, .extract], result := .normalReturn }
    else
      { fs := fs1,
        events := dl.2 ++ [.makedirs, .extract, .removedirs],
        result := .normalReturn }
  else { fs := fs1, events := dl.2, result := .normalReturn }

/- Helper lemmas about the embedded operations. -/

theorem sortByTimestamp_eq_self {df : List Record}
    (h : df.Pairwise (fun a b => a.timestamp ≤ b.timestamp)) :
    sortByTimestamp df = df :=
  List.mergeSort_of_sorted (h.imp (fun hab => decide_eq_true hab))

theorem sortByTimestamp_pairwise (df : List Record) :
    (sortByTimestamp df).Pairwise (fun a b => a.timestamp ≤ b.timestamp) := by
  have h := @List.sorted_mergeSort Record
      (fun a b => decide (a.timestamp ≤ b.timestamp))
      (fun a b c hab hbc => by
        simp only [decide_eq_true_eq] at hab hbc ⊢
        omega)
      (fun a b => by
        simp only [Bool.or_eq_true, decide_eq_true_eq]
        omega) df
  exact h.imp (fun hab => by simpa using hab)

theorem sortByTimestamp_perm (df : List Record) :
    (sortByTimestamp df).Perm df :=
  List.mergeSort_perm df _

/-- A uniform block of records: one session, consecutive timestamps
starting at a, all naming one item; the building brick for concrete
inputs large enough to cross the 71233-record tail. -/
def uBlock (sid a n item : Nat) : List Record :=
  (List.range' a n).map
    (fun t => { session_id := sid, timestamp := t, item_id := item })

theorem uBlock_length (sid a n item : Nat) :
    (uBlock sid a n item).length = n := by
  simp [uBlock]

theorem uBlock_mem {r : Record} {sid a n item : Nat}
    (h : r ∈ uBlock sid a n item) :
    ∃ t, a ≤ t ∧ t < a + n ∧
      r = { session_id := sid, timestamp := t, item_id := item } := by
  simp only [uBlock, List.mem_map, List.mem_range'_1] at h
  obtain ⟨t, ⟨h1, h2⟩, rfl⟩ := h
  exact ⟨t, h1, h2, rfl⟩

theorem uBlock_filter_pos {p : Record → Bool} {sid a n item : Nat}
    (h : ∀ t, p { session_id := sid, timestamp := t, item_id := item } = true) :
    (uBlock sid a n item).filter p = uBlock sid a n item :=
  List.filter_eq_self.mpr (fun r hr => by
    obtain ⟨t, _, _, rfl⟩ := uBlock_mem hr
    exact h t)

theorem uBlock_filter_neg {p : Record → Bool} {sid a n item : Nat}
    (h : ∀ t, p { session_id := sid, timestamp := t, item_id := item } = false) :
    (uBlock sid a n item).filter p = [] :=
  List.filter_eq_nil_iff.mpr (fun r hr => by
    obtain ⟨t, _, _, rfl⟩ := uBlock_mem hr
    simp [h t])

theorem uBlock_countP_pos {p : Record → Bool} {sid a n item : Nat}
    (h : ∀ t, p { session_id := sid, timestamp := t, item_id := item } = true) :
    (uBlock sid a n item).countP p = n := by
  rw [List.countP_eq_length_filter, uBlock_filter_pos h, uBlock_length]

theorem uBlock_countP_neg {p : Record → Bool} {sid a n item : Nat}
    (h : ∀ t, p { session_id := sid, timestamp := t, item_id := item } = false) :
    (uBlock sid a n item).countP p = 0 := by
  rw [List.countP_eq_length_filter, uBlock_filter_neg h, List.length_nil]

theorem uBlock_pairwise_ts (sid a n item : Nat) :
    (uBlock sid a n item).Pairwise (fun x y => x.timestamp ≤ y.timestamp) := by
  unfold uBlock
  rw [List.pairwise_map]
  exact (List.pairwise_lt_range' a n).imp (fun h => Nat.le_of_lt h)

theorem uBlock_map_session (sid a n item : Nat) :
    (uBlock sid a n item).map (fun r => r.session_id) =
      List.replicate n sid := by
  unfold uBlock
  rw [List.map_map]
  have h : ((fun r : Record => r.session_id) ∘ fun t =>
      ({ session_id := sid, timestamp := t, item_id := item } : Record)) =
      Function.const Nat sid := rfl
  rw [h, List.map_const, List.length_range']

theorem uBlock_map_item (sid a n item : Nat) :
    (uBlock sid a n item).map (fun r => r.item_id) =
      List.replicate n item := by
  unfold uBlock
  rw [List.map_map]
  have h : ((fun r : Record => r.item_id) ∘ fun t =>
      ({ session_id := sid, timestamp := t, item_id := item } : Record)) =
      Function.const Nat item := rfl
  rw [h, List.map_const, List.length_range']

theorem uBlock_append (sid a m n item : Nat) :
    uBlock sid a m item ++ uBlock sid (a + m) n item =
      uBlock sid a (m + n) item := by
  unfold uBlock
  rw [← List.map_append, Nat.add_comm m n]
  congr 1
  have h := List.range'_append a m n 1
  rw [Nat.one_mul] at h
  exact h

theorem dropDupByAux_sublist {α : Type} (key : α → Nat) :
    ∀ (l : List α) (seen : List Nat), (dropDupByAux key seen l).Sublist l
  | [], _ => List.Sublist.refl []
  | x :: rest, seen => by
      unfold dropDupByAux
      by_cases h : key x ∈ seen
      · rw [if_pos h]
        exact (dropDupByAux_sublist key rest seen).cons x
      · rw [if_neg h]
        exact (dropDupByAux_sublist key rest (key x :: seen)).cons₂ x

theorem dropDupBy_sublist {α : Type} (key : α → Nat) (l : List α) :
    (dropDupBy key l).Sublist l :=
  dropDupByAux_sublist key l []

theorem dropDupByAux_map_key {α : Type} (key : α → Nat) :
    ∀ (l : List α) (seen : List Nat),
      (dropDupByAux key seen l).map key = dropDupByAux id seen (l.map key)
  | [], _ => rfl
  | x :: rest, seen => by
      by_cases h : key x ∈ seen
      · simp only [dropDupByAux, List.map_cons, id_eq, if_pos h]
        exact dropDupByAux_map_key key rest seen
      · simp only [dropDupByAux, List.map_cons, id_eq, if_neg h]
        rw [dropDupByAux_map_key key rest (key x :: seen)]

theorem dropDupBy_map_key {α : Type} (key : α → Nat) (l : List α) :
    (dropDupBy key l).map key = dropDupBy id (l.map key) :=
  dropDupByAux_map_key key l []

theorem dropDupByAux_replicate_mem {seen : List Nat} {x : Nat}
    (h : x ∈ seen) :
    ∀ n, dropDupByAux id seen (List.replicate n x) = []
  | 0 => rfl
  | n + 1 => by
      rw [List.replicate_succ]
      simp only [dropDupByAux, id_eq, if_pos h]
      exact dropDupByAux_replicate_mem h n

theorem dropDupBy_replicate_id (n x : Nat) :
    dropDupBy id (List.replicate (n + 1) x) = [x] := by
  unfold dropDupBy
  rw [List.replicate_succ]
  simp only [dropDupByAux, id_eq, if_neg (List.not_mem_nil x)]
  rw [dropDupByAux_replicate_mem (List.mem_cons_self x []) n]

theorem dropDupByAux_key_cover {α : Type} (key : α → Nat) :
    ∀ (l : List α) (seen : List Nat), ∀ x ∈ l,
      key x ∈ seen ∨ key x ∈ (dropDupByAux key seen l).map key
  | [], _, x, hx => absurd hx (List.not_mem_nil x)
  | y :: rest, seen, x, hx => by
      unfold dropDupByAux
      by_cases h : key y ∈ seen
      · rw [if_pos h]
        rcases List.mem_cons.mp hx with rfl | hx2
        · exact Or.inl h
        · exact dropDupByAux_key_cover key rest seen x hx2
      · rw [if_neg h]
        rcases List.mem_cons.mp hx with rfl | hx2
        · exact Or.inr (by
            rw [List.map_cons]
            exact List.mem_cons_self _ _)
        · rcases dropDupByAux_key_cover key rest (key y :: seen) x hx2
            with h2 | h2
          · rcases List.mem_cons.mp h2 with he | hs
            · exact Or.inr (by
                rw [List.map_cons, he]
                exact List.mem_cons_self _ _)
            · exact Or.inl hs
          · exact Or.inr (by
              rw [List.map_cons]
              exact List.mem_cons_of_mem _ h2)

/-- Every key of the original list survives into the deduplicated list:
drop_duplicates only removes later copies. -/
theorem dropDupBy_key_cover {α : Type} (key : α → Nat) (l : List α) :
    ∀ x ∈ l, key x ∈ (dropDupBy key l).map key := by
  intro x hx
  rcases dropDupByAux_key_cover key l [] x hx with h | h
  · exact absurd h (List.not_mem_nil _)
  · exact h

/-- With fewer than 60 distinct sessions the quotient S // 60 is zero,
iloc[-0:] keeps the whole session frame, and the inner join leaves the
training frame unchanged: no subsampling happens. -/
theorem div64Step_id_of_small {df : List Record}
    (h : (div64Sessions df).length / 60 = 0) : div64Step df = df := by
  unfold div64Step
  apply List.filter_eq_self.mpr
  intro r hr
  have hk : div64Keep df =
      (div64Sessions df).map (fun x => x.session_id) := by
    unfold div64Keep ilocFromNeg
    rw [h, if_pos rfl]
  rw [hk]
  have hmem : r.session_id ∈ (dropDupBy (fun x => x.session_id) df).map
      (fun x => x.session_id) := dropDupBy_key_cover _ df r hr
  have hperm : ((div64Sessions df).map (fun x => x.session_id)).Perm
      ((dropDupBy (fun x => x.session_id) df).map
        (fun x => x.session_id)) := by
    unfold div64Sessions
    exact (List.mergeSort_perm _ _).map _
  exact List.elem_iff.mpr (hperm.mem_iff.mpr hmem)

theorem mergeSort_singleton {α : Type} (le : α → α → Bool) (x : α) :
    [x].mergeSort le = [x] :=
  List.mergeSort_of_sorted (List.pairwise_singleton _ x)

theorem sessionKeys_uBlock (sid a n item : Nat) :
    sessionKeys (uBlock sid a (n + 1) item) = [sid] := by
  unfold sessionKeys
  rw [uBlock_map_session, dropDupBy_replicate_id]
  exact mergeSort_singleton _ sid

theorem groupAgg_uBlock (sid a n item : Nat) :
    groupAgg (uBlock sid a (n + 1) item) =
      [(sid, List.replicate (n + 1) item)] := by
  unfold groupAgg
  rw [sessionKeys_uBlock, List.map_cons, List.map_nil]
  have h1 : (uBlock sid a (n + 1) item).filter
      (fun r => r.session_id == sid) = uBlock sid a (n + 1) item :=
    uBlock_filter_pos (fun t => by simp)
  rw [h1, uBlock_map_item]

theorem aggRows_uBlock (sid a n item : Nat) :
    aggRows (uBlock sid a (n + 1) item) = [List.replicate (n + 1) item] := by
  unfold aggRows
  rw [groupAgg_uBlock, List.map_cons, List.map_nil]

theorem sessionKeys_single (r : Record) : sessionKeys [r] = [r.session_id] := by
  unfold sessionKeys
  rw [show ([r].map (fun x => x.session_id)) = [r.session_id] from rfl]
  rw [show dropDupBy id [r.session_id] = [r.session_id] from rfl]
  exact mergeSort_singleton _ _

theorem aggRows_single (r : Record) : aggRows [r] = [[r.item_id]] := by
  unfold aggRows groupAgg
  rw [sessionKeys_single]
  simp [List.filter]

theorem mem_aggRows_item {df : List Record} {s : List Nat} {i : Nat}
    (hs : s ∈ aggRows df) (hi : i ∈ s) : ∃ r ∈ df, r.item_id = i := by
  unfold aggRows groupAgg at hs
  rw [List.map_map] at hs
  rcases List.mem_map.mp hs with ⟨key, -, rfl⟩
  rcases List.mem_map.mp hi with ⟨r, hr, rfl⟩
  exact ⟨r, (List.mem_filter.mp hr).1, rfl⟩

theorem sessionKeys_mem {df : List Record} {s : Nat}
    (h : s ∈ sessionKeys df) : ∃ r ∈ df, r.session_id = s := by
  unfold sessionKeys at h
  rw [(List.mergeSort_perm _ _).mem_iff] at h
  have h2 := (dropDupBy_sublist id (df.map (fun r => r.session_id))).subset h
  rcases List.mem_map.mp h2 with ⟨r, hr, hsid⟩
  exact ⟨r, hr, hsid⟩

theorem groupAgg_ne_nil {df : List Record} {g : Nat × List Nat}
    (h : g ∈ groupAgg df) : g.2 ≠ [] := by
  unfold groupAgg at h
  rcases List.mem_map.mp h with ⟨key, hkey, rfl⟩
  rcases sessionKeys_mem hkey with ⟨r, hr, hsid⟩
  intro hnil
  simp only at hnil
  have hrf : r ∈ df.filter (fun x => x.session_id == key) :=
    List.mem_filter.mpr ⟨hr, by simp [hsid]⟩
  rw [List.map_eq_nil_iff.mp hnil] at hrf
  exact List.not_mem_nil r hrf

theorem sessionLengthStep_count {df : List Record} {r : Record}
    (h : r ∈ sessionLengthStep df) :
    1 < sessionCount (sessionLengthStep df) r.session_id := by
  have hmem := List.mem_filter.mp h
  have hgt : 1 < sessionCount df r.session_id := by simpa using hmem.2
  have heq : sessionCount (sessionLengthStep df) r.session_id =
      sessionCount df r.session_id := by
    unfold sessionCount sessionLengthStep
    rw [List.countP_filter]
    exact List.countP_congr (fun x hx => by
      constructor
      · intro hand
        exact (Bool.and_eq_true _ _).mp hand |>.1
      · intro hx2
        have hsx : x.session_id = r.session_id := by simpa using hx2
        simp [hx2, hsx, hgt])
  rw [heq]
  exact hgt

/- Concrete inputs.  The tail split takes the last 71233 records, so any
input that exercises a nonempty training split needs more than 71233
records; the uniform blocks keep these inputs tractable. -/

/-- One session (id 1) of 71234 records of item 10, timestamps 0..71233:
after the split its first record is the whole training split. -/
def cxA : List Record := uBlock 1 0 71234 10

/-- Both components of the record pipeline without div64, written out:
follows the dataflow of lines 149-197 with the flag false. -/
theorem pipelineRecords_nodiv (df0 : List Record) (mu : Nat) (fu : Bool) :
    pipelineRecords df0 mu false fu =
      (trainSplit (survivorsSorted df0 mu fu),
       oovFilter (trainSplit (survivorsSorted df0 mu fu))
         (testSplit (survivorsSorted df0 mu fu))) := by
  unfold pipelineRecords
  simp only [Bool.false_eq_true, if_false]

/-- Both components of the record pipeline with div64, written out. -/
theorem pipelineRecords_div (df0 : List Record) (mu : Nat) (fu : Bool) :
    pipelineRecords df0 mu true fu =
      (div64Step (trainSplit (survivorsSorted df0 mu fu)),
       oovFilter (trainSplit (survivorsSorted df0 mu fu))
         (testSplit (survivorsSorted df0 mu fu))) := by
  unfold pipelineRecords
  simp only [if_true]

theorem pipelineDatasets_eq (df0 : List Record) (mu : Nat)
    (div64 fu : Bool) :
    pipelineDatasets df0 mu div64 fu =
      (aggRows (pipelineRecords df0 mu div64 fu).1,
       aggRows (pipelineRecords df0 mu div64 fu).2) := rfl

theorem freqStage_false (mu : Nat) (df : List Record) :
    freqStage false mu df = df := rfl

theorem sessionLengthStep_cxA : sessionLengthStep cxA = cxA := by
  have hc : sessionCount cxA 1 = 71234 := by
    unfold sessionCount cxA
    exact uBlock_countP_pos (fun t => by simp)
  unfold sessionLengthStep cxA
  apply uBlock_filter_pos
  intro t
  show decide (1 < sessionCount cxA 1) = true
  rw [hc]
  decide

theorem survivors_cxA : survivorsSorted cxA 5 false = cxA := by
  unfold survivorsSorted
  rw [freqStage_false, sessionLengthStep_cxA]
  exact sortByTimestamp_eq_self (uBlock_pairwise_ts 1 0 71234 10)

theorem cxA_eq_append :
    cxA = uBlock 1 0 1 10 ++ uBlock 1 1 71233 10 := by
  have h := uBlock_append 1 0 1 71233 10
  norm_num at h
  exact h.symm

theorem survivors_cxA_length :
    (survivorsSorted cxA 5 false).length = 71234 := by
  rw [survivors_cxA]
  unfold cxA
  exact uBlock_length 1 0 71234 10

theorem trainSplit_cxA :
    trainSplit (survivorsSorted cxA 5 false) =
      [{ session_id := 1, timestamp := 0, item_id := 10 }] := by
  unfold trainSplit
  rw [survivors_cxA_length, survivors_cxA, cxA_eq_append]
  have hn : 71234 - TAIL_N = 1 := by norm_num [TAIL_N]
  rw [hn, List.take_left' (uBlock_length 1 0 1 10)]
  rfl

theorem testSplit_cxA :
    testSplit (survivorsSorted cxA 5 false) = uBlock 1 1 71233 10 := by
  unfold testSplit
  rw [survivors_cxA_length, survivors_cxA, cxA_eq_append]
  have hn : 71234 - TAIL_N = 1 := by norm_num [TAIL_N]
  rw [hn, List.drop_left' (uBlock_length 1 0 1 10)]

theorem pipeline_cxA :
    pipelineRecords cxA 5 false false =
      ([{ session_id := 1, timestamp := 0, item_id := 10 }],
       uBlock 1 1 71233 10) := by
  rw [pipelineRecords_nodiv, trainSplit_cxA, testSplit_cxA]
  unfold oovFilter
  rw [uBlock_filter_pos (fun t => by simp)]

theorem datasets_cxA :
    pipelineDatasets cxA 5 false false =
      ([[10]], [List.replicate 71233 10]) := by
  rw [pipelineDatasets_eq, pipeline_cxA]
  have h1 := aggRows_single { session_id := 1, timestamp := 0, item_id := 10 }
  have h2 := aggRows_uBlock 1 1 71232 10
  norm_num at h2
  rw [show (([{ session_id := 1, timestamp := 0, item_id := 10 }],
      uBlock 1 1 71233 10) :
        List Record × List Record).1 =
      [{ session_id := 1, timestamp := 0, item_id := 10 }] from rfl]
  rw [show (([{ session_id := 1, timestamp := 0, item_id := 10 }],
      uBlock 1 1 71233 10) :
        List Record × List Record).2 = uBlock 1 1 71233 10 from rfl]
  rw [h1, h2]

/-- The last two records of cxB: a second session whose first item (20)
occurs nowhere else, followed by one record of item 10. -/
def tailB : List Record :=
  [{ session_id := 2, timestamp := 71233, item_id := 20 },
   { session_id := 2, timestamp := 71234, item_id := 10 }]

/-- Session 1 with 71233 records of item 10 (timestamps 0..71232), then
session 2 with items 20 and 10: the split sends both session-2 records to
the test side, where the item-20 record is removed as out of vocabulary,
leaving a one-record test session. -/
def cxB : List Record := uBlock 1 0 71233 10 ++ tailB

theorem cxB_def : cxB = uBlock 1 0 71233 10 ++ tailB := rfl

theorem sessionCount_cxB_1 : sessionCount cxB 1 = 71233 := by
  unfold sessionCount cxB
  rw [List.countP_append, uBlock_countP_pos (fun t => by simp)]
  decide

theorem sessionCount_cxB_2 : sessionCount cxB 2 = 2 := by
  unfold sessionCount cxB
  rw [List.countP_append, uBlock_countP_neg (fun t => by simp)]
  decide

theorem sessionLengthStep_cxB : sessionLengthStep cxB = cxB := by
  unfold sessionLengthStep
  apply List.filter_eq_self.mpr
  intro r hr
  rw [cxB_def] at hr
  rcases List.mem_append.mp hr with h | h
  · obtain ⟨t, _, _, rfl⟩ := uBlock_mem h
    show decide (1 < sessionCount cxB 1) = true
    rw [sessionCount_cxB_1]
    decide
  · simp only [tailB, List.mem_cons, List.not_mem_nil, or_false] at h
    rcases h with rfl | rfl
    all_goals
      show decide (1 < sessionCount cxB 2) = true
      rw [sessionCount_cxB_2]
      decide

theorem cxB_pairwise :
    cxB.Pairwise (fun a b => a.timestamp ≤ b.timestamp) := by
  rw [cxB_def]
  apply List.pairwise_append.mpr
  refine ⟨uBlock_pairwise_ts 1 0 71233 10, ?_, ?_⟩
  · unfold tailB
    exact List.Pairwise.cons (fun b hb => by
      simp only [List.mem_singleton] at hb
      rw [hb]
      decide) (List.pairwise_singleton _ _)
  · intro a ha b hb
    obtain ⟨t, _, ht, rfl⟩ := uBlock_mem ha
    have hb71 : 71233 ≤ b.timestamp := by
      simp only [tailB, List.mem_cons, List.not_mem_nil, or_false] at hb
      rcases hb with rfl | rfl
      · decide
      · decide
    show t ≤ b.timestamp
    omega

theorem survivors_cxB : survivorsSorted cxB 5 false = cxB := by
  unfold survivorsSorted
  rw [freqStage_false, sessionLengthStep_cxB]
  exact sortByTimestamp_eq_self cxB_pairwise

theorem survivors_cxB_length :
    (survivorsSorted cxB 5 false).length = 71235 := by
  rw [survivors_cxB, cxB_def, List.length_append, uBlock_length]
  rfl

theorem cxB_regroup :
    cxB = uBlock 1 0 2 10 ++ (uBlock 1 2 71231 10 ++ tailB) := by
  have h := uBlock_append 1 0 2 71231 10
  norm_num at h
  rw [cxB_def, ← h, List.append_assoc]

theorem trainSplit_cxB :
    trainSplit (survivorsSorted cxB 5 false) = uBlock 1 0 2 10 := by
  unfold trainSplit
  rw [survivors_cxB_length, survivors_cxB]
  have hn : 71235 - TAIL_N = 2 := by norm_num [TAIL_N]
  rw [hn, cxB_regroup, List.take_left' (uBlock_length 1 0 2 10)]

theorem testSplit_cxB :
    testSplit (survivorsSorted cxB 5 false) =
      uBlock 1 2 71231 10 ++ tailB := by
  unfold testSplit
  rw [survivors_cxB_length, survivors_cxB]
  have hn : 71235 - TAIL_N = 2 := by norm_num [TAIL_N]
  rw [hn, cxB_regroup, List.drop_left' (uBlock_length 1 0 2 10)]

theorem oov_cxB :
    oovFilter (uBlock 1 0 2 10) (uBlock 1 2 71231 10 ++ tailB) =
      uBlock 1 2 71231 10 ++
        [{ session_id := 2, timestamp := 71234, item_id := 10 }] := by
  unfold oovFilter
  rw [List.filter_append, uBlock_filter_pos (fun t => by
    simp [show uBlock 1 0 2 10 =
      [{ session_id := 1, timestamp := 0, item_id := 10 },
       { session_id := 1, timestamp := 1, item_id := 10 }] from rfl])]
  congr 1

theorem pipeline_cxB :
    pipelineRecords cxB 5 false false =
      (uBlock 1 0 2 10,
       uBlock 1 2 71231 10 ++
         [{ session_id := 2, timestamp := 71234, item_id := 10 }]) := by
  rw [pipelineRecords_nodiv, trainSplit_cxB, testSplit_cxB, oov_cxB]

theorem dropDupByAux_replicate_append_mem {seen : List Nat} {x : Nat}
    (h : x ∈ seen) (l : List Nat) :
    ∀ n, dropDupByAux id seen (List.replicate n x ++ l) =
      dropDupByAux id seen l
  | 0 => rfl
  | n + 1 => by
      rw [List.replicate_succ, List.cons_append]
      simp only [dropDupByAux, id_eq, if_pos h]
      exact dropDupByAux_replicate_append_mem h l n

theorem dropDupBy_replicate_append (n x : Nat) (l : List Nat) :
    dropDupBy id (List.replicate (n + 1) x ++ l) =
      x :: dropDupByAux id [x] l := by
  unfold dropDupBy
  rw [List.replicate_succ, List.cons_append]
  simp only [dropDupByAux, id_eq, if_neg (List.not_mem_nil x)]
  rw [dropDupByAux_replicate_append_mem (List.mem_cons_self x []) l n]

/-- The single extra test record of cxB surviving the vocabulary filter. -/
def recB : Record := { session_id := 2, timestamp := 71234, item_id := 10 }

theorem sessionKeys_cxB_test :
    sessionKeys (uBlock 1 2 71231 10 ++ [recB]) = [1, 2] := by
  unfold sessionKeys
  rw [List.map_append, uBlock_map_session,
      show List.replicate 71231 (1 : Nat) = List.replicate (71230 + 1) 1
        from rfl,
      show ([recB].map (fun r => r.session_id)) = [2] from rfl,
      dropDupBy_replicate_append,
      show dropDupByAux id [1] [2] = [2] from rfl]
  exact List.mergeSort_of_sorted (by decide)

theorem aggRows_cxB_test :
    aggRows (uBlock 1 2 71231 10 ++ [recB]) =
      [List.replicate 71231 10, [10]] := by
  unfold aggRows groupAgg
  rw [sessionKeys_cxB_test]
  simp only [List.map_cons, List.map_nil]
  rw [List.filter_append, List.filter_append,
      uBlock_filter_pos (fun t => by simp),
      uBlock_filter_neg (fun t => by simp),
      show ([recB].filter (fun r => r.session_id == 1)) = [] from rfl,
      show ([recB].filter (fun r => r.session_id == 2)) = [recB] from rfl,
      List.append_nil, List.nil_append, uBlock_map_item]
  rfl

theorem datasets_cxB :
    pipelineDatasets cxB 5 false false =
      ([[10, 10]], [List.replicate 71231 10, [10]]) := by
  rw [pipelineDatasets_eq, pipeline_cxB]
  show (aggRows (uBlock 1 0 2 10),
        aggRows (uBlock 1 2 71231 10 ++ [recB])) = _
  rw [aggRows_cxB_test]
  have h := aggRows_uBlock 1 0 1 10
  norm_num at h
  rw [h]
  rfl

/-- Sixty-one two-record training sessions: session s+1 at timestamps 2s
and 2s+1; session 1 names item 10, all others item 30. -/
def trainPart61 : List Record :=
  (List.range' 0 61).flatMap (fun s =>
    [{ session_id := s + 1, timestamp := 2 * s,
       item_id := if s == 0 then 10 else 30 },
     { session_id := s + 1, timestamp := 2 * s + 1,
       item_id := if s == 0 then 10 else 30 }])

/-- The session representatives drop_duplicates keeps from trainPart61:
the first record of each of the 61 sessions. -/
def reps61 : List Record :=
  (List.range' 0 61).map (fun s =>
    { session_id := s + 1, timestamp := 2 * s,
      item_id := if s == 0 then 10 else 30 })

/-- One test session of 71233 records of item 10. -/
def blockC : List Record := uBlock 100 122 71233 10

/-- Input showing the div64 vocabulary leak: with div64 enabled only the
most recent of the 61 training sessions survives (session 61, item 30),
while the whole test block names item 10, whose only training
occurrences were in session 1. -/
def cx1 : List Record := trainPart61 ++ blockC

theorem cx1_def : cx1 = trainPart61 ++ blockC := rfl

theorem blockC_def : blockC = uBlock 100 122 71233 10 := rfl

theorem trainPart61_facts :
    trainPart61.length = 122 ∧
    (∀ r ∈ trainPart61,
        trainPart61.countP (fun x => x.session_id == r.session_id) = 2 ∧
        r.session_id ≠ 100 ∧ r.timestamp < 122) := by decide

theorem sessionLengthStep_cx1 : sessionLengthStep cx1 = cx1 := by
  unfold sessionLengthStep
  apply List.filter_eq_self.mpr
  intro r hr
  rw [cx1_def] at hr
  rcases List.mem_append.mp hr with h | h
  · have hf := trainPart61_facts.2 r h
    have hcount : sessionCount cx1 r.session_id = 2 := by
      unfold sessionCount
      rw [cx1_def, List.countP_append, blockC_def,
          uBlock_countP_neg (fun t =>
            show ((100 : Nat) == r.session_id) = false from
              beq_eq_false_iff_ne.mpr (Ne.symm hf.2.1)),
          hf.1]
    show decide (1 < sessionCount cx1 r.session_id) = true
    rw [hcount]
    decide
  · rw [blockC_def] at h
    obtain ⟨t, _, _, rfl⟩ := uBlock_mem h
    have hcount : sessionCount cx1 100 = 71233 := by
      unfold sessionCount
      rw [cx1_def, List.countP_append, blockC_def,
          uBlock_countP_pos (fun t => by simp),
          show trainPart61.countP (fun x => x.session_id == 100) = 0
            by decide]
    show decide (1 < sessionCount cx1 100) = true
    rw [hcount]
    decide

theorem cx1_pairwise :
    cx1.Pairwise (fun a b => a.timestamp ≤ b.timestamp) := by
  rw [cx1_def]
  apply List.pairwise_append.mpr
  refine ⟨by decide, ?_, ?_⟩
  · rw [blockC_def]
    exact uBlock_pairwise_ts 100 122 71233 10
  · intro a ha b hb
    have h1 : a.timestamp < 122 := (trainPart61_facts.2 a ha).2.2
    rw [blockC_def] at hb
    obtain ⟨t, ht, _, rfl⟩ := uBlock_mem hb
    show a.timestamp ≤ t
    omega

theorem survivors_cx1 : survivorsSorted cx1 5 false = cx1 := by
  unfold survivorsSorted
  rw [freqStage_false, sessionLengthStep_cx1]
  exact sortByTimestamp_eq_self cx1_pairwise

theorem survivors_cx1_length :
    (survivorsSorted cx1 5 false).length = 71355 := by
  rw [survivors_cx1, cx1_def, List.length_append, trainPart61_facts.1,
      blockC_def, uBlock_length]

theorem trainSplit_cx1 :
    trainSplit (survivorsSorted cx1 5 false) = trainPart61 := by
  unfold trainSplit
  rw [survivors_cx1_length, survivors_cx1]
  have hn : 71355 - TAIL_N = 122 := by norm_num [TAIL_N]
  rw [hn, cx1_def, List.take_left' trainPart61_facts.1]

theorem testSplit_cx1 :
    testSplit (survivorsSorted cx1 5 false) = blockC := by
  unfold testSplit
  rw [survivors_cx1_length, survivors_cx1]
  have hn : 71355 - TAIL_N = 122 := by norm_num [TAIL_N]
  rw [hn, cx1_def, List.drop_left' trainPart61_facts.1]

theorem oov_cx1 : oovFilter trainPart61 blockC = blockC := by
  unfold oovFilter
  rw [blockC_def]
  exact uBlock_filter_pos (fun t =>
    show trainPart61.any (fun x => x.item_id == 10) = true by decide)

theorem pipeline_cx1 :
    pipelineRecords cx1 5 true false = (div64Step trainPart61, blockC) := by
  rw [pipelineRecords_div, trainSplit_cx1, testSplit_cx1, oov_cx1]

theorem dropDup_trainPart61 :
    dropDupBy (fun r => r.session_id) trainPart61 = reps61 := by decide

theorem div64Sessions_trainPart61 : div64Sessions trainPart61 = reps61 := by
  unfold div64Sessions
  rw [dropDup_trainPart61]
  exact List.mergeSort_of_sorted (by decide)

theorem div64Keep_trainPart61 : div64Keep trainPart61 = [61] := by
  unfold div64Keep
  rw [div64Sessions_trainPart61]
  decide

theorem div64Step_trainPart61 :
    div64Step trainPart61 = uBlock 61 120 2 30 := by
  unfold div64Step
  rw [div64Keep_trainPart61]
  decide

theorem datasets_cx1 :
    pipelineDatasets cx1 5 true false =
      ([[30, 30]], [List.replicate 71233 10]) := by
  rw [pipelineDatasets_eq, pipeline_cx1]
  show (aggRows (div64Step trainPart61), aggRows blockC) = _
  rw [div64Step_trainPart61, blockC_def]
  have h1 := aggRows_uBlock 61 120 1 30
  have h2 := aggRows_uBlock 100 122 71232 10
  norm_num at h1 h2
  rw [h1, h2]
  rfl

/- Claim theorems. -/

/-- C3: for every input whose surviving record set (after both filters,
sorted by timestamp ascending) has at least 71233 records, the test
split is exactly the last 71233 records and the training split all
preceding ones: concatenating them restores the sorted frame, the test
split has exactly TAIL_N records, the training split the rest, and the
frame is sorted by timestamp. -/
theorem temporal_split_tail (df0 : List Record) (mu : Nat) (fu : Bool)
    (h : TAIL_N ≤ (survivorsSorted df0 mu fu).length) :
    trainSplit (survivorsSorted df0 mu fu) ++
        testSplit (survivorsSorted df0 mu fu) =
      survivorsSorted df0 mu fu ∧
    (testSplit (survivorsSorted df0 mu fu)).length = TAIL_N ∧
    (trainSplit (survivorsSorted df0 mu fu)).length =
      (survivorsSorted df0 mu fu).length - TAIL_N ∧
    (survivorsSorted df0 mu fu).Pairwise
      (fun a b => a.timestamp ≤ b.timestamp) := by
  refine ⟨List.take_append_drop _ _, ?_, ?_, sortByTimestamp_pairwise _⟩
  · unfold testSplit
    rw [List.length_drop]
    omega
  · unfold trainSplit
    rw [List.length_take]
    omega

/-- C3 witness: cxA has 71234 surviving records, so the hypothesis holds
and the split equations follow at this concrete input. -/
theorem temporal_split_tail_witness :
    TAIL_N ≤ (survivorsSorted cxA 5 false).length ∧
    trainSplit (survivorsSorted cxA 5 false) ++
        testSplit (survivorsSorted cxA 5 false) =
      survivorsSorted cxA 5 false := by
  have h : TAIL_N ≤ (survivorsSorted cxA 5 false).length := by
    rw [survivors_cxA_length]
    norm_num [TAIL_N]
  exact ⟨h, (temporal_split_tail cxA 5 false h).1⟩

/-- C4: with filter_unique=true, a record survives the low-frequency
stage exactly when its item occurs at least min_unique times in the
whole pre-filter record set, and the stage preserves record order; with
filter_unique=false the stage passes the record set through unchanged,
so nothing is dropped on frequency grounds. -/
theorem low_frequency_filter (df : List Record) (mu : Nat) :
    (∀ r ∈ freqStage true mu df, mu ≤ itemCount df r.item_id) ∧
    (∀ r ∈ df, mu ≤ itemCount df r.item_id → r ∈ freqStage true mu df) ∧
    (freqStage true mu df).Sublist df ∧
    freqStage false mu df = df := by
  refine ⟨?_, ?_, List.filter_sublist df, rfl⟩
  · intro r hr
    have hr2 : r ∈ filterUniqueStep mu df := hr
    exact of_decide_eq_true (List.mem_filter.mp hr2).2
  · intro r hr hc
    show r ∈ filterUniqueStep mu df
    exact List.mem_filter.mpr ⟨hr, decide_eq_true hc⟩

/-- Input for the C4 witness: item 7 occurs twice, item 9 once. -/
def dfW4 : List Record :=
  [{ session_id := 1, timestamp := 0, item_id := 7 },
   { session_id := 1, timestamp := 1, item_id := 7 },
   { session_id := 2, timestamp := 2, item_id := 9 }]

/-- C4 witness: the surviving record of dfW4 names an item of count at
least 2, by the theorem applied at this concrete input. -/
theorem low_frequency_filter_witness :
    ({ session_id := 1, timestamp := 0, item_id := 7 } : Record) ∈
      freqStage true 2 dfW4 ∧
    2 ≤ itemCount dfW4 7 := by
  have m : ({ session_id := 1, timestamp := 0, item_id := 7 } : Record) ∈
      freqStage true 2 dfW4 := by decide
  exact ⟨m, (low_frequency_filter dfW4 2).1 _ m⟩

/-- C7 counterexample: with the archive present, no data directory and
no system unpack capability, the call cleans up the directory it created
but does not propagate an error: it returns normally, so the claim that
an error reaches the caller is false on this input. -/
theorem unpack_failure_cex :
    (download_and_unpack_yoochoose
        { archiveFile := true, dataDir := false, canUnpack := false
          }).fs.dataDir = false ∧
    (download_and_unpack_yoochoose
        { archiveFile := true, dataDir := false, canUnpack := false
          }).result ≠ AcqResult.raised := by decide

/-- C7 amended: when unpacking fails, download_and_unpack_yoochoose
removes the partially created output directory and logs the error, but
the PatoolError is caught and the function returns normally; no error
propagates to the caller. -/
theorem unpack_failure (fs : AcqFS) (h1 : fs.dataDir = false)
    (h2 : fs.canUnpack = false) :
    (download_and_unpack_yoochoose fs).fs.dataDir = false ∧
    AcqEvent.removedirs ∈ (download_and_unpack_yoochoose fs).events ∧
    (download_and_unpack_yoochoose fs).result = AcqResult.normalReturn := by
  obtain ⟨a, d, c⟩ := fs
  have h1x : d = false := h1
  have h2x : c = false := h2
  subst h1x
  subst h2x
  cases a <;> simp [download_and_unpack_yoochoose]

/-- C7 witness: the amended theorem instantiated at a concrete file
system with no archive, no directory, and no unpack capability. -/
theorem unpack_failure_witness :
    ({ archiveFile := false, dataDir := false, canUnpack := false } :
      AcqFS).dataDir = false ∧
    ({ archiveFile := false, dataDir := false, canUnpack := false } :
      AcqFS).canUnpack = false ∧
    (download_and_unpack_yoochoose
        { archiveFile := false, dataDir := false, canUnpack := false
          }).result = AcqResult.normalReturn :=
  ⟨rfl, rfl,
   (unpack_failure
     { archiveFile := false, dataDir := false, canUnpack := false }
     rfl rfl).2.2⟩

/-- C8: when the archive file and the data directory both exist the
acquisition call performs no download, no directory creation and no
extraction, and leaves the file system unchanged; consequently a second
call after any first call in an environment that can unpack performs no
side effect at all. -/
theorem acquisition_idempotent (fs : AcqFS) (h1 : fs.archiveFile = true)
    (h2 : fs.dataDir = true) :
    download_and_unpack_yoochoose fs =
      { fs := fs, events := [], result := AcqResult.normalReturn } ∧
    (∀ g : AcqFS, g.canUnpack = true →
      download_and_unpack_yoochoose (download_and_unpack_yoochoose g).fs =
        { fs := (download_and_unpack_yoochoose g).fs, events := [],
          result := AcqResult.normalReturn }) := by
  constructor
  · obtain ⟨a, d, c⟩ := fs
    have h1x : a = true := h1
    have h2x : d = true := h2
    subst h1x
    subst h2x
    simp [download_and_unpack_yoochoose]
  · intro g hg
    obtain ⟨a, d, c⟩ := g
    have hgx : c = true := hg
    subst hgx
    cases a <;> cases d <;> simp [download_and_unpack_yoochoose]

/-- C8 witness: the idempotence equation instantiated at the file system
where archive and directory are both present. -/
theorem acquisition_idempotent_witness :
    ({ archiveFile := true, dataDir := true, canUnpack := true } :
      AcqFS).archiveFile = true ∧
    ({ archiveFile := true, dataDir := true, canUnpack := true } :
      AcqFS).dataDir = true ∧
    download_and_unpack_yoochoose
        { archiveFile := true, dataDir := true, canUnpack := true } =
      { fs := { archiveFile := true, dataDir := true, canUnpack := true },
        events := [], result := AcqResult.normalReturn } :=
  ⟨rfl, rfl,
   (acquisition_idempotent
     { archiveFile := true, dataDir := true, canUnpack := true }
     rfl rfl).1⟩

/-- C5 amended: the div64 reduction restricts the training frame to
exactly the records of the kept sessions, preserving record order; when
the training split has at least 60 distinct sessions (so S / 60 is
positive) the kept sessions are exactly the last floor(S/60) of the
sorted session frame and the kept list has floor(S/60) entries, but
when S / 60 is zero sessions.iloc[-0:] selects the whole frame and the
training frame is left entirely unsubsampled; every dropped session
representative starts no later than every kept one; the test component
of the pipeline does not depend on the div64 flag, while with the flag
the training component is exactly the div64 reduction of the training
split. -/
theorem div64_subsample (df df0 : List Record) (mu : Nat) (fu : Bool) :
    (∀ r ∈ df, (r ∈ div64Step df ↔ r.session_id ∈ div64Keep df)) ∧
    (div64Step df).Sublist df ∧
    (1 ≤ (dropDupBy id (df.map (fun r => r.session_id))).length / 60 →
      (div64Keep df).length =
        (dropDupBy id (df.map (fun r => r.session_id))).length / 60 ∧
      div64Keep df = ((div64Sessions df).drop
          ((div64Sessions df).length - (div64Sessions df).length / 60)).map
        (fun r => r.session_id)) ∧
    ((dropDupBy id (df.map (fun r => r.session_id))).length / 60 = 0 →
      div64Step df = df) ∧
    (∀ a ∈ (div64Sessions df).take
        ((div64Sessions df).length - (div64Sessions df).length / 60),
      ∀ b ∈ (div64Sessions df).drop
        ((div64Sessions df).length - (div64Sessions df).length / 60),
        a.timestamp ≤ b.timestamp) ∧
    (pipelineRecords df0 mu true fu).2 =
      (pipelineRecords df0 mu false fu).2 ∧
    (pipelineRecords df0 mu true fu).1 =
      div64Step (trainSplit (survivorsSorted df0 mu fu)) := by
  have hS : (div64Sessions df).length =
      (dropDupBy id (df.map (fun r => r.session_id))).length := by
    unfold div64Sessions
    rw [List.length_mergeSort, ← dropDupBy_map_key, List.length_map]
  refine ⟨?_, List.filter_sublist df, ?_, ?_, ?_, ?_, ?_⟩
  · intro r hr
    constructor
    · intro hmem
      have hp := (List.mem_filter.mp hmem).2
      exact List.elem_iff.mp hp
    · intro hk
      exact List.mem_filter.mpr ⟨hr, List.elem_iff.mpr hk⟩
  · intro h1
    have hne : (div64Sessions df).length / 60 ≠ 0 := by
      rw [hS]
      omega
    constructor
    · unfold div64Keep ilocFromNeg
      rw [if_neg hne, List.length_map, List.length_drop]
      have hle := Nat.div_le_self (div64Sessions df).length 60
      omega
    · unfold div64Keep ilocFromNeg
      rw [if_neg hne]
  · intro h0
    apply div64Step_id_of_small
    rw [hS]
    exact h0
  · have hp : (div64Sessions df).Pairwise
        (fun a b => a.timestamp ≤ b.timestamp) :=
      sortByTimestamp_pairwise (dropDupBy (fun r => r.session_id) df)
    have hsplit := List.take_append_drop
        ((div64Sessions df).length - (div64Sessions df).length / 60)
        (div64Sessions df)
    have hp2 : ((div64Sessions df).take
          ((div64Sessions df).length - (div64Sessions df).length / 60) ++
        (div64Sessions df).drop
          ((div64Sessions df).length - (div64Sessions df).length / 60)
          ).Pairwise (fun a b => a.timestamp ≤ b.timestamp) := by
      rw [hsplit]
      exact hp
    exact (List.pairwise_append.mp hp2).2.2
  · rw [pipelineRecords_div, pipelineRecords_nodiv]
  · rw [pipelineRecords_div]

/-- Input for the C5 witness: 61 one-record sessions with increasing
timestamps; floor(61/60) is 1, so only session 60 is kept. -/
def df61w : List Record :=
  (List.range' 0 61).map
    (fun s => { session_id := s, timestamp := s, item_id := 5 })

theorem div64Sessions_df61w : div64Sessions df61w = df61w := by
  unfold div64Sessions
  rw [show dropDupBy (fun r => r.session_id) df61w = df61w from by decide]
  exact List.mergeSort_of_sorted (by decide)

/-- C5 witness: the subsample theorem instantiated at df61w (61 distinct
sessions, quotient 1) for the membership characterisation, the kept-list
size and the start-order comparison, and at dfW4 (2 distinct sessions,
quotient 0) for the no-subsampling branch. -/
theorem div64_subsample_witness :
    ({ session_id := 0, timestamp := 0, item_id := 5 } : Record) ∈ df61w ∧
    1 ≤ (dropDupBy id (df61w.map (fun r => r.session_id))).length / 60 ∧
    (dropDupBy id (dfW4.map (fun r => r.session_id))).length / 60 = 0 ∧
    (({ session_id := 0, timestamp := 0, item_id := 5 } : Record) ∈
        div64Step df61w ↔ (0 : Nat) ∈ div64Keep df61w) ∧
    (div64Keep df61w).length =
      (dropDupBy id (df61w.map (fun r => r.session_id))).length / 60 ∧
    div64Step dfW4 = dfW4 ∧
    ({ session_id := 0, timestamp := 0, item_id := 5 } : Record).timestamp ≤
      ({ session_id := 60, timestamp := 60, item_id := 5 } : Record).timestamp := by
  have m : ({ session_id := 0, timestamp := 0, item_id := 5 } : Record) ∈
      df61w := by decide
  have h1 : 1 ≤ (dropDupBy id (df61w.map
      (fun r => r.session_id))).length / 60 := by decide
  have h0 : (dropDupBy id (dfW4.map
      (fun r => r.session_id))).length / 60 = 0 := by decide
  have ma : ({ session_id := 0, timestamp := 0, item_id := 5 } : Record) ∈
      (div64Sessions df61w).take
        ((div64Sessions df61w).length - (div64Sessions df61w).length / 60) := by
    rw [div64Sessions_df61w]
    decide
  have mb : ({ session_id := 60, timestamp := 60, item_id := 5 } : Record) ∈
      (div64Sessions df61w).drop
        ((div64Sessions df61w).length - (div64Sessions df61w).length / 60) := by
    rw [div64Sessions_df61w]
    decide
  exact ⟨m, h1, h0, (div64_subsample df61w [] 5 false).1 _ m,
    ((div64_subsample df61w [] 5 false).2.2.1 h1).1,
    (div64_subsample dfW4 [] 5 false).2.2.2.1 h0,
    (div64_subsample df61w [] 5 false).2.2.2.2.1 _ ma _ mb⟩

theorem div64Sessions_uB2 :
    div64Sessions (uBlock 1 0 2 10) =
      [{ session_id := 1, timestamp := 0, item_id := 10 }] := by
  unfold div64Sessions
  rw [show dropDupBy (fun r => r.session_id) (uBlock 1 0 2 10) =
      [{ session_id := 1, timestamp := 0, item_id := 10 }] from by decide]
  exact mergeSort_singleton _ _

theorem div64Keep_uB2 : div64Keep (uBlock 1 0 2 10) = [1] := by
  unfold div64Keep
  rw [div64Sessions_uB2]
  decide

theorem div64Step_uB2 :
    div64Step (uBlock 1 0 2 10) = uBlock 1 0 2 10 := by
  unfold div64Step
  rw [div64Keep_uB2]
  decide

theorem pipeline_cxB_div :
    pipelineRecords cxB 5 true false =
      (uBlock 1 0 2 10,
       uBlock 1 2 71231 10 ++
         [{ session_id := 2, timestamp := 71234, item_id := 10 }]) := by
  rw [pipelineRecords_div, trainSplit_cxB, testSplit_cxB, oov_cxB,
      div64Step_uB2]

/-- C5 counterexample: at cxB with div64 enabled the training split has
S = 1 distinct session, so floor(S/60) = 0, yet the final training set
is not restricted to the most recent zero sessions: it is nonempty and
still contains one distinct session, because sessions.iloc[-0:] selects
the entire session frame and no subsampling takes place. -/
theorem div64_subsample_cex :
    (dropDupBy id ((trainSplit (survivorsSorted cxB 5 false)).map
        (fun r => r.session_id))).length / 60 = 0 ∧
    (pipelineRecords cxB 5 true false).1 ≠ [] ∧
    ¬ ((dropDupBy id ((pipelineRecords cxB 5 true false).1.map
          (fun r => r.session_id))).length ≤
        (dropDupBy id ((trainSplit (survivorsSorted cxB 5 false)).map
            (fun r => r.session_id))).length / 60) := by
  have htr : (pipelineRecords cxB 5 true false).1 = uBlock 1 0 2 10 := by
    rw [pipeline_cxB_div]
  have hdd : dropDupBy id ((uBlock 1 0 2 10).map
      (fun r => r.session_id)) = [1] := by
    rw [uBlock_map_session]
    exact dropDupBy_replicate_id 1 1
  refine ⟨?_, ?_, ?_⟩
  · rw [trainSplit_cxB, hdd]
    decide
  · rw [htr]
    decide
  · rw [htr, trainSplit_cxB, hdd]
    decide

theorem trainSplit_sublist (df3 : List Record) :
    (trainSplit df3).Sublist df3 :=
  List.take_sublist _ _

theorem testSplit_sublist (df3 : List Record) :
    (testSplit df3).Sublist df3 :=
  List.drop_sublist _ _

theorem pipelineRecords_train_sublist (df0 : List Record) (mu : Nat)
    (div64 fu : Bool) :
    (pipelineRecords df0 mu div64 fu).1.Sublist
      (survivorsSorted df0 mu fu) := by
  cases div64
  · have h : (pipelineRecords df0 mu false fu).1 =
        trainSplit (survivorsSorted df0 mu fu) := by
      rw [pipelineRecords_nodiv]
    rw [h]
    exact trainSplit_sublist _
  · have h : (pipelineRecords df0 mu true fu).1 =
        div64Step (trainSplit (survivorsSorted df0 mu fu)) := by
      rw [pipelineRecords_div]
    rw [h]
    exact (List.filter_sublist _).trans (trainSplit_sublist _)

theorem pipelineRecords_test_sublist (df0 : List Record) (mu : Nat)
    (div64 fu : Bool) :
    (pipelineRecords df0 mu div64 fu).2.Sublist
      (survivorsSorted df0 mu fu) := by
  have h : ∀ d : Bool, (pipelineRecords df0 mu d fu).2 =
      oovFilter (trainSplit (survivorsSorted df0 mu fu))
        (testSplit (survivorsSorted df0 mu fu)) := by
    intro d
    cases d
    · rw [pipelineRecords_nodiv]
    · rw [pipelineRecords_div]
  rw [h div64]
  exact (List.filter_sublist _).trans (testSplit_sublist _)

/-- C6: in both final aggregations every group is exactly the
subsequence of the final frame belonging to its session key, in frame
order (grouping is a stable filter, with no re-sort), and that
subsequence is chronologically ordered, inherited from the timestamp
sort of the whole frame. -/
theorem grouping_stable_chronological (df0 : List Record) (mu : Nat)
    (div64 fu : Bool) :
    (∀ g ∈ groupAgg (pipelineRecords df0 mu div64 fu).1, ∃ key,
        g = (key, ((pipelineRecords df0 mu div64 fu).1.filter
            (fun r => r.session_id == key)).map (fun r => r.item_id)) ∧
        ((pipelineRecords df0 mu div64 fu).1.filter
            (fun r => r.session_id == key)).Pairwise
          (fun a b => a.timestamp ≤ b.timestamp)) ∧
    (∀ g ∈ groupAgg (pipelineRecords df0 mu div64 fu).2, ∃ key,
        g = (key, ((pipelineRecords df0 mu div64 fu).2.filter
            (fun r => r.session_id == key)).map (fun r => r.item_id)) ∧
        ((pipelineRecords df0 mu div64 fu).2.filter
            (fun r => r.session_id == key)).Pairwise
          (fun a b => a.timestamp ≤ b.timestamp)) := by
  constructor
  · intro g hg
    obtain ⟨key, -, rfl⟩ := List.mem_map.mp hg
    exact ⟨key, rfl, List.Pairwise.sublist
      ((List.filter_sublist _).trans
        (pipelineRecords_train_sublist df0 mu div64 fu))
      (sortByTimestamp_pairwise _)⟩
  · intro g hg
    obtain ⟨key, -, rfl⟩ := List.mem_map.mp hg
    exact ⟨key, rfl, List.Pairwise.sublist
      ((List.filter_sublist _).trans
        (pipelineRecords_test_sublist df0 mu div64 fu))
      (sortByTimestamp_pairwise _)⟩

theorem groupAgg_pipeline_cx1 :
    groupAgg (pipelineRecords cx1 5 true false).1 = [(61, [30, 30])] := by
  have h1 : (pipelineRecords cx1 5 true false).1 = div64Step trainPart61 := by
    rw [pipeline_cx1]
  rw [h1, div64Step_trainPart61]
  have hg := groupAgg_uBlock 61 120 1 30
  norm_num at hg
  rw [hg]
  rfl

/-- C6 witness: the grouping theorem instantiated at cx1 with div64 on,
at the only group of the final training aggregation. -/
theorem grouping_stable_witness :
    ((61, [30, 30]) : Nat × List Nat) ∈
      groupAgg (pipelineRecords cx1 5 true false).1 ∧
    (∃ key, ((61, [30, 30]) : Nat × List Nat) =
        (key, ((pipelineRecords cx1 5 true false).1.filter
            (fun r => r.session_id == key)).map (fun r => r.item_id)) ∧
        ((pipelineRecords cx1 5 true false).1.filter
            (fun r => r.session_id == key)).Pairwise
          (fun a b => a.timestamp ≤ b.timestamp)) := by
  have m : ((61, [30, 30]) : Nat × List Nat) ∈
      groupAgg (pipelineRecords cx1 5 true false).1 := by
    rw [groupAgg_pipeline_cx1]
    exact List.mem_singleton.mpr rfl
  exact ⟨m, (grouping_stable_chronological cx1 5 true false).1 _ m⟩

theorem oov_items_in_train (a b : List Record) :
    ∀ s ∈ aggRows (oovFilter a b), ∀ i ∈ s, ∃ r ∈ a, r.item_id = i := by
  intro s hs i hi
  obtain ⟨r, hr, hri⟩ := mem_aggRows_item hs hi
  obtain ⟨hrB, hp⟩ := List.mem_filter.mp hr
  obtain ⟨x, hx, hxi⟩ := List.any_eq_true.mp hp
  exact ⟨x, hx, by rw [← hri]; exact eq_of_beq hxi⟩

/-- C1 counterexample: at cx1 with div64 enabled (and filter_unique
false) the final test set is one session of item 10, yet no record of
the final training set names item 10: the div64 subsampling runs after
the out-of-vocabulary filter and removed the only training session
containing that item.  This refutes, at an explicit input, the claim
that for every parameter setting every test item occurs in the training
record set. -/
theorem vocab_containment_cex :
    ∃ s ∈ (pipelineDatasets cx1 5 true false).2, ∃ i ∈ s,
      ∀ r ∈ (pipelineRecords cx1 5 true false).1, r.item_id ≠ i := by
  refine ⟨List.replicate 71233 10, ?_, 10, ?_, ?_⟩
  · have h : (pipelineDatasets cx1 5 true false).2 =
        [List.replicate 71233 10] := by
      rw [datasets_cx1]
    rw [h]
    exact List.mem_singleton.mpr rfl
  · exact List.mem_replicate.mpr ⟨by norm_num, rfl⟩
  · intro r hrr
    have h1 : (pipelineRecords cx1 5 true false).1 = div64Step trainPart61 := by
      rw [pipeline_cx1]
    rw [h1, div64Step_trainPart61] at hrr
    obtain ⟨t, _, _, rfl⟩ := uBlock_mem hrr
    show (30 : Nat) ≠ 10
    decide

/-- C1 amended: every item of every session of the final test set occurs
in the training split as produced by the tail split of lines 179-180,
before any div64 subsampling; in particular with div64=false it occurs
in the final training record set.  With div64=true the containment in
the final training set can fail (see the counterexample). -/
theorem vocab_containment (df0 : List Record) (mu : Nat) (div64 fu : Bool) :
    (∀ s ∈ (pipelineDatasets df0 mu div64 fu).2, ∀ i ∈ s,
        ∃ r ∈ trainSplit (survivorsSorted df0 mu fu), r.item_id = i) ∧
    (∀ s ∈ (pipelineDatasets df0 mu false fu).2, ∀ i ∈ s,
        ∃ r ∈ (pipelineRecords df0 mu false fu).1, r.item_id = i) := by
  have key : ∀ s ∈ aggRows (oovFilter
      (trainSplit (survivorsSorted df0 mu fu))
      (testSplit (survivorsSorted df0 mu fu))), ∀ i ∈ s,
      ∃ r ∈ trainSplit (survivorsSorted df0 mu fu), r.item_id = i :=
    oov_items_in_train _ _
  constructor
  · intro s hs i hi
    have hs2 : s ∈ aggRows (oovFilter
        (trainSplit (survivorsSorted df0 mu fu))
        (testSplit (survivorsSorted df0 mu fu))) := by
      have h2 : (pipelineDatasets df0 mu div64 fu).2 =
          aggRows (oovFilter (trainSplit (survivorsSorted df0 mu fu))
            (testSplit (survivorsSorted df0 mu fu))) := by
        show aggRows (pipelineRecords df0 mu div64 fu).2 = _
        cases div64
        · rw [pipelineRecords_nodiv]
        · rw [pipelineRecords_div]
      rw [h2] at hs
      exact hs
    exact key s hs2 i hi
  · intro s hs i hi
    have hs2 : s ∈ aggRows (oovFilter
        (trainSplit (survivorsSorted df0 mu fu))
        (testSplit (survivorsSorted df0 mu fu))) := by
      have h2 : (pipelineDatasets df0 mu false fu).2 =
          aggRows (oovFilter (trainSplit (survivorsSorted df0 mu fu))
            (testSplit (survivorsSorted df0 mu fu))) := by
        show aggRows (pipelineRecords df0 mu false fu).2 = _
        rw [pipelineRecords_nodiv]
      rw [h2] at hs
      exact hs
    obtain ⟨r, hr, hri⟩ := key s hs2 i hi
    refine ⟨r, ?_, hri⟩
    have h3 : (pipelineRecords df0 mu false fu).1 =
        trainSplit (survivorsSorted df0 mu fu) := by
      rw [pipelineRecords_nodiv]
    rw [h3]
    exact hr

/-- C1 witness: the amended containment instantiated at cxA, whose test
set is one session of 71233 occurrences of item 10; the theorem places
item 10 in the training split. -/
theorem vocab_containment_witness :
    List.replicate 71233 10 ∈ (pipelineDatasets cxA 5 false false).2 ∧
    (10 : Nat) ∈ List.replicate 71233 10 ∧
    (∃ r ∈ trainSplit (survivorsSorted cxA 5 false), r.item_id = 10) := by
  have m1 : List.replicate 71233 10 ∈ (pipelineDatasets cxA 5 false false).2 := by
    have h : (pipelineDatasets cxA 5 false false).2 =
        [List.replicate 71233 10] := by
      rw [datasets_cxA]
    rw [h]
    exact List.mem_singleton.mpr rfl
  have m2 : (10 : Nat) ∈ List.replicate 71233 10 :=
    List.mem_replicate.mpr ⟨by norm_num, rfl⟩
  exact ⟨m1, m2, (vocab_containment cxA 5 false false).1 _ m1 10 m2⟩

/-- C2 counterexample: the final training set of cxA contains the
session [10] of length one (the tail split cut session 1 after its first
record), and the final test set of cxB contains the session [10] of
length one (session 2 lost its item-20 record to the vocabulary filter
and was not re-filtered), refuting the minimum-length claim on both
sides. -/
theorem min_session_length_cex :
    (¬ ∀ s ∈ (pipelineDatasets cxA 5 false false).1, 2 ≤ s.length) ∧
    (¬ ∀ s ∈ (pipelineDatasets cxB 5 false false).2, 2 ≤ s.length) := by
  constructor
  · intro h
    have m : [10] ∈ (pipelineDatasets cxA 5 false false).1 := by
      have he : (pipelineDatasets cxA 5 false false).1 = [[10]] := by
        rw [datasets_cxA]
      rw [he]
      exact List.mem_singleton.mpr rfl
    exact absurd (h [10] m) (by decide)
  · intro h
    have m : [10] ∈ (pipelineDatasets cxB 5 false false).2 := by
      have he : (pipelineDatasets cxB 5 false false).2 =
          [List.replicate 71231 10, [10]] := by
        rw [datasets_cxB]
      rw [he]
      exact List.mem_cons_of_mem _ (List.mem_singleton.mpr rfl)
    exact absurd (h [10] m) (by decide)

/-- C2 amended: right after the session-length filter every surviving
record belongs to a session with at least two records in the filtered
frame, and no empty session ever appears in either final aggregation
(sessions whose records are all removed vanish); but the final Datasets
may contain sessions of length one, created by the tail split cutting a
session or by out-of-vocabulary removal inside a test session (see the
counterexample). -/
theorem min_session_length (df df0 : List Record) (mu : Nat)
    (div64 fu : Bool) :
    (∀ r ∈ sessionLengthStep df,
        1 < sessionCount (sessionLengthStep df) r.session_id) ∧
    (∀ g ∈ groupAgg (pipelineRecords df0 mu div64 fu).1, g.2 ≠ []) ∧
    (∀ g ∈ groupAgg (pipelineRecords df0 mu div64 fu).2, g.2 ≠ []) :=
  ⟨fun _ hr => sessionLengthStep_count hr,
   fun _ hg => groupAgg_ne_nil hg,
   fun _ hg => groupAgg_ne_nil hg⟩

/-- Small input for the C2 witness: session 1 has two records, session 2
only one and is dropped by the session-length filter. -/
def dfW2 : List Record :=
  [{ session_id := 1, timestamp := 0, item_id := 7 },
   { session_id := 1, timestamp := 1, item_id := 7 },
   { session_id := 2, timestamp := 2, item_id := 8 }]

theorem groupAgg_pipeline_cxA :
    groupAgg (pipelineRecords cxA 5 false false).1 = [(1, [10])] := by
  have h : (pipelineRecords cxA 5 false false).1 =
      [{ session_id := 1, timestamp := 0, item_id := 10 }] := by
    rw [pipeline_cxA]
  rw [h]
  unfold groupAgg
  rw [sessionKeys_single]
  simp [List.filter]

/-- C2 witness: the amended statement instantiated at dfW2 for the
session-length stage and at cxA for the nonempty-group facts. -/
theorem min_session_length_witness :
    ({ session_id := 1, timestamp := 0, item_id := 7 } : Record) ∈
      sessionLengthStep dfW2 ∧
    ((1, [10]) : Nat × List Nat) ∈
      groupAgg (pipelineRecords cxA 5 false false).1 ∧
    1 < sessionCount (sessionLengthStep dfW2) 1 ∧
    ((1, [10]) : Nat × List Nat).2 ≠ [] := by
  have m1 : ({ session_id := 1, timestamp := 0, item_id := 7 } : Record) ∈
      sessionLengthStep dfW2 := by decide
  have m2 : ((1, [10]) : Nat × List Nat) ∈
      groupAgg (pipelineRecords cxA 5 false false).1 := by
    rw [groupAgg_pipeline_cxA]
    exact List.mem_singleton.mpr rfl
  exact ⟨m1, m2, (min_session_length dfW2 cxA 5 false false).1 _ m1,
    (min_session_length dfW2 cxA 5 false false).2.1 _ m2⟩

theorem sortByTimestamp_nil : sortByTimestamp [] = [] :=
  sortByTimestamp_eq_self List.Pairwise.nil

theorem survivorsSorted_nil (mu : Nat) (fu : Bool) :
    survivorsSorted [] mu fu = [] := by
  have h : freqStage fu mu [] = [] := by cases fu <;> rfl
  unfold survivorsSorted
  rw [h]
  exact sortByTimestamp_nil

theorem groupAgg_nil : groupAgg [] = [] := by
  unfold groupAgg sessionKeys
  rw [show dropDupBy id (([] : List Record).map
        (fun r => r.session_id)) = [] from rfl,
      List.mergeSort_of_sorted List.Pairwise.nil]
  rfl

theorem yoochoose_agg_empty :
    (yoochoose { cachedDs := none, cachedTestDs := none } [] [] 5
        false false false true true).2 = YoResult.aggOnly [] := by
  show YoResult.aggOnly (groupAgg (pipelineRecords [] 5 false true).1) = _
  have h1 : (pipelineRecords [] 5 false true).1 = [] := by
    rw [pipelineRecords_nodiv, survivorsSorted_nil]
    rfl
  rw [h1, groupAgg_nil]

/-- C9 counterexample: with cache=false and return_agg=true the function
returns the raw groupby aggregation of line 207, not a pair of the
training Dataset with its Language; the claim that the pair is always
returned fails at this input. -/
theorem returns_pair_cex :
    ¬ ∃ ds : DatasetObj,
        (yoochoose { cachedDs := none, cachedTestDs := none } [] [] 5
            false false false true true).2 =
          YoResult.pair ds ds.language := by
  intro h
  obtain ⟨ds, h⟩ := h
  rw [yoochoose_agg_empty] at h
  exact YoResult.noConfusion h

/-- C9 amended: whenever return_agg is false, yoochoose returns the pair
of the training Dataset and that Dataset shared Language, and the test
Dataset is never part of the returned value: on a cold run with
cache=true both datasets are written to the two pickle slots before the
training pair is returned, and with cache=false the cache state is left
untouched, so the test Dataset is discarded.  When return_agg is true
the raw training aggregation is returned instead (see the
counterexample). -/
theorem returns_train_pair (st : CacheState)
    (dfClicks dfTestFile : List Record) (mu : Nat) (div64 test fu : Bool) :
    (yoochoose { cachedDs := none, cachedTestDs := st.cachedTestDs }
        dfClicks dfTestFile mu div64 test true false fu =
      ({ cachedDs := some (mkDataset (aggRows (pipelineRecords
            (if test then dfTestFile else dfClicks) mu div64 fu).1)
            { lower := false, removePunct := false }),
         cachedTestDs := some (mkDataset (aggRows (pipelineRecords
            (if test then dfTestFile else dfClicks) mu div64 fu).2)
            { lower := false, removePunct := false }) },
       YoResult.pair
         (mkDataset (aggRows (pipelineRecords
            (if test then dfTestFile else dfClicks) mu div64 fu).1)
            { lower := false, removePunct := false })
         { lower := false, removePunct := false })) ∧
    (yoochoose st dfClicks dfTestFile mu div64 test false false fu =
      (st, YoResult.pair
         (mkDataset (aggRows (pipelineRecords
            (if test then dfTestFile else dfClicks) mu div64 fu).1)
            { lower := false, removePunct := false })
         { lower := false, removePunct := false })) := by
  constructor
  · rfl
  · obtain ⟨c1, c2⟩ := st
    cases c1 <;> rfl

/-- C10: whenever cache is true and the yoochoose-ds.pkl slot holds a
dataset, yoochoose returns that dataset after the rechunk normalization
together with its language, regardless of the div64, test and return_agg
flags and of the input frames; the cache state is unchanged and the
rechunk step preserves rows and language. -/
theorem cache_hit (st : CacheState) (d : DatasetObj)
    (dfClicks dfTestFile : List Record) (mu : Nat)
    (div64 test return_agg fu : Bool) (h : st.cachedDs = some d) :
    yoochoose st dfClicks dfTestFile mu div64 test true return_agg fu =
      (st, YoResult.pair (rechunkAuto d) (rechunkAuto d).language) ∧
    (rechunkAuto d).rows = d.rows ∧
    (rechunkAuto d).language = d.language := by
  refine ⟨?_, rfl, rfl⟩
  obtain ⟨c1, c2⟩ := st
  have h2 : c1 = some d := h
  subst h2
  rfl

/-- C10 witness: the cache-hit equation instantiated at a concrete
cached dataset, with return_agg and test both true. -/
theorem cache_hit_witness :
    ({ cachedDs :=
        some (mkDataset [[1, 2]] { lower := false, removePunct := false }),
       cachedTestDs := none } : CacheState).cachedDs =
      some (mkDataset [[1, 2]] { lower := false, removePunct := false }) ∧
    yoochoose
        { cachedDs :=
            some (mkDataset [[1, 2]] { lower := false, removePunct := false }),
          cachedTestDs := none } [] [] 5 true true true true true =
      ({ cachedDs :=
          some (mkDataset [[1, 2]] { lower := false, removePunct := false }),
         cachedTestDs := none },
       YoResult.pair
         (rechunkAuto (mkDataset [[1, 2]]
           { lower := false, removePunct := false }))
         (rechunkAuto (mkDataset [[1, 2]]
           { lower := false, removePunct := false })).language) :=
  ⟨rfl,
   (cache_hit
     { cachedDs :=
         some (mkDataset [[1, 2]] { lower := false, removePunct := false }),
       cachedTestDs := none }
     (mkDataset [[1, 2]] { lower := false, removePunct := false })
     [] [] 5 true true true true rfl).1⟩

end Sequence
